import Mathlib

/-!
Shallow embedding of src/models/prospect/prospectall.py, the PROSPECT leaf
optical properties model (versions 5 and D).

Numbers are modelled by rationals.  The transcendental primitives the source
takes from numpy/scipy (np.sin, np.sqrt, np.log, np.exp, scipy.special.expi,
the real power np.power, and the constant pi inside np.deg2rad) are supplied
as an explicit record of functions, since their numeric content lives outside
the repository.  The two static absorption-coefficient tables are loaded at
module start from data files that are not part of the source tree, so the
embedding is parameterized over their columns as well.

All numpy operations in the source are elementwise over per-wavelength
arrays (with scalars broadcast); the embedding gives the per-index scalar
computation of each intermediate array, plus the list-level entry points
prospectdcore and run_prospect which perform the shape validation and
assemble the output lists.  Rational division by zero yields 0 (the Lean
convention), standing in for the IEEE NaN/Inf the source produces on the
degenerate inputs its spec documents as out of contract.
-/

/-- Primitive numeric functions and constants the source imports from
numpy and scipy: sin, sqrt, log, exp, the exponential integral expi,
the binary real power np.power, and pi (used by np.deg2rad). -/
structure Prims where
  sin : ℚ → ℚ
  sqrt : ℚ → ℚ
  log : ℚ → ℚ
  exp : ℚ → ℚ
  expi : ℚ → ℚ
  rpow : ℚ → ℚ → ℚ
  pi : ℚ

/-- Columns of the two static absorption-coefficient tables, loaded at module
start from prospectd_absc.txt (7 data columns) and prospect5_absc.txt
(6 data columns).  The data files are not part of the source tree, so the
columns are parameters of the embedding. -/
structure Tables where
  nr_d : List ℚ
  kab_d : List ℚ
  kcar_d : List ℚ
  kant_d : List ℚ
  kbrown_d : List ℚ
  kw_d : List ℚ
  km_d : List ℚ
  nr_5 : List ℚ
  kab_5 : List ℚ
  kcar_5 : List ℚ
  kbrown_5 : List ℚ
  kw_5 : List ℚ
  km_5 : List ℚ

/-- calctav from the source (lines 19-57): the Stern/Allen closed-form
transmissivity of a dielectric interface.  The source applies it elementwise
over the refractive-index array by numpy broadcasting with alpha a scalar;
this is the per-element computation.  np.deg2rad alpha is alpha * pi / 180. -/
def calctav (P : Prims) (alpha nr : ℚ) : ℚ :=
  let n2 := nr * nr
  let npx := n2 + 1
  let nm := n2 - 1
  let a := (nr + 1) * (nr + 1) / 2
  let k := -(n2 - 1) * (n2 - 1) / 4
  let sa := P.sin (alpha * P.pi / 180)
  let b1 := if alpha ≠ 90 then P.sqrt ((sa * sa - npx / 2) * (sa * sa - npx / 2) + k) else 0
  let b2 := sa * sa - npx / 2
  let b := b1 - b2
  let b3 := b ^ 3
  let a3 := a ^ 3
  let ts := (k ^ 2 / (6 * b3) + k / b - b / 2) - (k ^ 2 / (6 * a3) + k / a - a / 2)
  let tp1 := -2 * n2 * (b - a) / (npx ^ 2)
  let tp2 := -2 * n2 * npx * P.log (b / a) / (nm ^ 2)
  let tp3 := n2 * (1 / b - 1 / a) / 2
  let tp4 := 16 * n2 ^ 2 * (n2 ^ 2 + 1) * P.log ((2 * npx * b - nm ^ 2) / (2 * npx * a - nm ^ 2)) /
      (npx ^ 3 * nm ^ 2)
  let tp5 := 16 * n2 ^ 3 * (1 / (2 * npx * b - nm ^ 2) - 1 / (2 * npx * a - nm ^ 2)) / (npx ^ 3)
  let tp := tp1 + tp2 + tp3 + tp4 + tp5
  (ts + tp) / (2 * sa ^ 2)

/-- Spec-side form of calctav for claim C8: the same Stern/Allen closed form
with the b1 intermediate supplied as a parameter, so that the claim that the
alpha = 90 special case changes only b1 (and nothing else in the formula)
can be stated as a refinement of calctav by this definition. -/
def calctavGen (P : Prims) (alpha nr b1 : ℚ) : ℚ :=
  let n2 := nr * nr
  let npx := n2 + 1
  let nm := n2 - 1
  let a := (nr + 1) * (nr + 1) / 2
  let k := -(n2 - 1) * (n2 - 1) / 4
  let sa := P.sin (alpha * P.pi / 180)
  let b2 := sa * sa - npx / 2
  let b := b1 - b2
  let b3 := b ^ 3
  let a3 := a ^ 3
  let ts := (k ^ 2 / (6 * b3) + k / b - b / 2) - (k ^ 2 / (6 * a3) + k / a - a / 2)
  let tp1 := -2 * n2 * (b - a) / (npx ^ 2)
  let tp2 := -2 * n2 * npx * P.log (b / a) / (nm ^ 2)
  let tp3 := n2 * (1 / b - 1 / a) / 2
  let tp4 := 16 * n2 ^ 2 * (n2 ^ 2 + 1) * P.log ((2 * npx * b - nm ^ 2) / (2 * npx * a - nm ^ 2)) /
      (npx ^ 3 * nm ^ 2)
  let tp5 := 16 * n2 ^ 3 * (1 / (2 * npx * b - nm ^ 2) - 1 / (2 * npx * a - nm ^ 2)) / (npx ^ 3)
  let tp := tp1 + tp2 + tp3 + tp4 + tp5
  (ts + tp) / (2 * sa ^ 2)

/-- Result record of refl_trans_one_layer: the five per-wavelength values
the source returns as a tuple (r, t, Ra, Ta, denom). -/
structure LayerVals where
  r : ℚ
  t : ℚ
  Ra : ℚ
  Ta : ℚ
  denom : ℚ

/-- refl_trans_one_layer from the source (lines 60-86): reflectance and
transmittance of one layer, per wavelength element. -/
def refl_trans_one_layer (P : Prims) (alpha nr tau : ℚ) : LayerVals :=
  let talf := calctav P alpha nr
  let ralf := 1 - talf
  let t12 := calctav P 90 nr
  let r12 := 1 - t12
  let t21 := t12 / (nr * nr)
  let r21 := 1 - t21
  let denom := 1 - r21 * r21 * tau * tau
  let Ta := talf * tau * t21 / denom
  let Ra := ralf + r21 * tau * Ta
  let t := t12 * tau * t21 / denom
  let r := r12 + r21 * tau * t
  ⟨r, t, Ra, Ta, denom⟩

/-- Inputs of prospectdcore after shape validation: the scalar leaf
parameters and the seven per-wavelength coefficient lists. -/
structure CoreIn where
  N : ℚ
  cab : ℚ
  car : ℚ
  cbrown : ℚ
  cw : ℚ
  cm : ℚ
  ant : ℚ
  nr : List ℚ
  kab : List ℚ
  kcar : List ℚ
  kbrown : List ℚ
  kw : List ℚ
  km : List ℚ
  kant : List ℚ
  alpha : ℚ

/-- Element i of kall (source lines 99-100): the N-weighted linear
combination of the contents against their absorption coefficients. -/
def kallAt (c : CoreIn) (i : Nat) : ℚ :=
  (c.cab * c.kab.getD i 0 + c.car * c.kcar.getD i 0 + c.ant * c.kant.getD i 0 +
   c.cbrown * c.kbrown.getD i 0 + c.cw * c.kw.getD i 0 + c.cm * c.km.getD i 0) / c.N

/-- Element i of tau (source lines 101-105): tau starts as ones and is
overwritten with t1 + t2 exactly at the indices where kall is positive,
so per index it is the branch below. -/
def tauAt (P : Prims) (c : CoreIn) (i : Nat) : ℚ :=
  let kall := kallAt c i
  if 0 < kall then (1 - kall) * P.exp (-kall) + kall ^ 2 * (-P.expi (-kall)) else 1

/-- Element i of the single-layer quantities r, t, Ra, Ta (source line 107). -/
def layerAt (P : Prims) (c : CoreIn) (i : Nat) : LayerVals :=
  refl_trans_one_layer P c.alpha (c.nr.getD i 0) (tauAt P c i)

/-- Element i of D (source line 118). -/
def DAt (P : Prims) (c : CoreIn) (i : Nat) : ℚ :=
  let r := (layerAt P c i).r
  let t := (layerAt P c i).t
  P.sqrt ((1 + r + t) * (1 + r - t) * (1 - r + t) * (1 - r - t))

/-- Element i of a (source line 121). -/
def aAt (P : Prims) (c : CoreIn) (i : Nat) : ℚ :=
  let r := (layerAt P c i).r
  let t := (layerAt P c i).t
  (1 + r * r - t * t + DAt P c i) / (2 * r)

/-- Element i of b (source line 122). -/
def bAt (P : Prims) (c : CoreIn) (i : Nat) : ℚ :=
  let r := (layerAt P c i).r
  let t := (layerAt P c i).t
  (1 - r * r + t * t + DAt P c i) / (2 * t)

/-- Element i of bNm1 = np.power(b, N-1) (source line 124). -/
def bNm1At (P : Prims) (c : CoreIn) (i : Nat) : ℚ :=
  P.rpow (bAt P c i) (c.N - 1)

/-- Element i of bN2 = bNm1*bNm1 (source line 125). -/
def bN2At (P : Prims) (c : CoreIn) (i : Nat) : ℚ :=
  bNm1At P c i * bNm1At P c i

/-- Element i of a2 = a*a (source line 126). -/
def a2At (P : Prims) (c : CoreIn) (i : Nat) : ℚ :=
  aAt P c i * aAt P c i

/-- Element i of the general-formula Rsub (source lines 127-128). -/
def RsubGenAt (P : Prims) (c : CoreIn) (i : Nat) : ℚ :=
  aAt P c i * (bN2At P c i - 1) / (a2At P c i * bN2At P c i - 1)

/-- Element i of the general-formula Tsub (source line 129). -/
def TsubGenAt (P : Prims) (c : CoreIn) (i : Nat) : ℚ :=
  bNm1At P c i * (a2At P c i - 1) / (a2At P c i * bN2At P c i - 1)

/-- Element i of Tsub after the zero-absorption overwrite (source lines
132-133): at indices with r + t >= 1 the no-absorption limit replaces the
general formula. -/
def TsubAt (P : Prims) (c : CoreIn) (i : Nat) : ℚ :=
  let r := (layerAt P c i).r
  let t := (layerAt P c i).t
  if 1 ≤ r + t then t / (t + (1 - t) * (c.N - 1)) else TsubGenAt P c i

/-- Element i of Rsub after the zero-absorption overwrite (source line 134):
the overwrite uses the already-updated Tsub. -/
def RsubAt (P : Prims) (c : CoreIn) (i : Nat) : ℚ :=
  let r := (layerAt P c i).r
  let t := (layerAt P c i).t
  if 1 ≤ r + t then 1 - TsubAt P c i else RsubGenAt P c i

/-- Element i of the final leaf transmittance (source lines 137-138). -/
def tranAt (P : Prims) (c : CoreIn) (i : Nat) : ℚ :=
  (layerAt P c i).Ta * TsubAt P c i / (1 - RsubAt P c i * (layerAt P c i).r)

/-- Element i of the final leaf reflectance (source lines 137, 139). -/
def reflAt (P : Prims) (c : CoreIn) (i : Nat) : ℚ :=
  (layerAt P c i).Ra +
    (layerAt P c i).Ta * RsubAt P c i * (layerAt P c i).t / (1 - RsubAt P c i * (layerAt P c i).r)

/-- The wavelength grid np.arange(400, 2501): the 2101 integers 400..2500. -/
def lambdasGrid : List ℤ :=
  (List.range 2101).map (fun (i : Nat) => 400 + (i : ℤ))

/-- prospectdcore from the source (lines 88-141): validates that all seven
coefficient lists have the length of the wavelength grid, raising the shape
error otherwise (modelled as Except.error), then returns the grid together
with the elementwise reflectance and transmittance. -/
def prospectdcore (P : Prims) (N cab car cbrown cw cm ant : ℚ)
    (nr kab kcar kbrown kw km kant : List ℚ) (alpha : ℚ) :
    Except String (List ℤ × List ℚ × List ℚ) :=
  let lambdas := lambdasGrid
  let n_lambdas := lambdas.length
  let n_elems_list := [nr.length, kab.length, kcar.length, kbrown.length,
                       kw.length, km.length, kant.length]
  if ¬ (n_elems_list.all (fun k => k = n_lambdas)) then
    Except.error "Leaf spectra don\x27t have the right shape!"
  else
    let c : CoreIn := ⟨N, cab, car, cbrown, cw, cm, ant, nr, kab, kcar, kbrown, kw, km, kant, alpha⟩
    Except.ok (lambdas,
      (List.range n_lambdas).map (fun i => reflAt P c i),
      (List.range n_lambdas).map (fun i => tranAt P c i))

/-- Python str.upper as the source applies it to the version string: the
string with every character upper-cased (the version strings involved are
ASCII, where this agrees with Python).  Defined directly over the character
list so that it evaluates by kernel reduction. -/
def pyUpper (s : String) : String :=
  ⟨s.data.map Char.toUpper⟩

/-- run_prospect from the source (lines 144-175).  The source defaults
(ant = 0, prospect_version = "D", all overrides None, alpha = 40) are left
to callers; argument order follows the source.  Under version "5" the
source passes ant = 0.0 and np.zeros_like(km_5) for kant, consulting
neither the ant argument nor a caller-supplied kant. -/
def run_prospect (P : Prims) (T : Tables) (n cab car cbrown cw cm ant : ℚ)
    (prospect_version : String)
    (nr kab kcar kbrown kw km kant : Option (List ℚ)) (alpha : ℚ) :
    Except String (List ℤ × List ℚ × List ℚ) :=
  if prospect_version = "5" then
    prospectdcore P n cab car cbrown cw cm 0
      (nr.getD T.nr_5) (kab.getD T.kab_5) (kcar.getD T.kcar_5)
      (kbrown.getD T.kbrown_5) (kw.getD T.kw_5) (km.getD T.km_5)
      (T.km_5.map (fun _ => 0)) alpha
  else if pyUpper prospect_version = "D" then
    prospectdcore P n cab car cbrown cw cm ant
      (nr.getD T.nr_d) (kab.getD T.kab_d) (kcar.getD T.kcar_d)
      (kbrown.getD T.kbrown_d) (kw.getD T.kw_d) (km.getD T.km_d)
      (kant.getD T.kant_d) alpha
  else
    Except.error "prospect_version can only be 5 or D!"

/-- A supplied override option holding a list whose length is not 2101. -/
def badLen (o : Option (List ℚ)) : Prop :=
  ∃ l, o = some l ∧ l.length ≠ 2101

/-- Concrete primitive record used by witnesses: sin constantly 1, sqrt, log,
exp and expi constantly 0, power constantly 1, pi = 0. -/
def P1 : Prims :=
  ⟨fun _ => 1, fun _ => 0, fun _ => 0, fun _ => 0, fun _ => 0, fun _ _ => 1, 0⟩

/-- Concrete table record with empty columns, used by witnesses whose
conclusion does not depend on the table contents. -/
def T0 : Tables :=
  ⟨[], [], [], [], [], [], [], [], [], [], [], [], []⟩

/-- Concrete table record whose columns all have the correct length 2101. -/
def T1 : Tables :=
  ⟨List.replicate 2101 0, List.replicate 2101 0, List.replicate 2101 0,
   List.replicate 2101 0, List.replicate 2101 0, List.replicate 2101 0,
   List.replicate 2101 0, List.replicate 2101 0, List.replicate 2101 0,
   List.replicate 2101 0, List.replicate 2101 0, List.replicate 2101 0,
   List.replicate 2101 0⟩

/-- Concrete core input with zero contents (so kall = 0 and tau = 1 at every
index) and refractive index 2 at index 0. -/
def c0 : CoreIn :=
  ⟨1, 0, 0, 0, 0, 0, 0, [2], [0], [0], [0], [0], [0], [0], 40⟩

/-- Concrete core input with cab = 1 and kab 1 at index 0 (so kall = 1 and,
under P1, tau = 0 there) and refractive index 2. -/
def c1 : CoreIn :=
  ⟨1, 1, 0, 0, 0, 0, 0, [2], [1], [0], [0], [0], [0], [0], 40⟩

/-- Concrete core input with two wavelength indices: kall = 0 at index 0 and
kall = 1 at index 1, so one call mixes both Stokes branches. -/
def c2 : CoreIn :=
  ⟨1, 1, 0, 0, 0, 0, 0, [2, 2], [0, 1], [0, 0], [0, 0], [0, 0], [0, 0], [0, 0], 40⟩

/-- Concrete core input with empty coefficient lists, used where only the
per-index scalar recurrences are evaluated. -/
def cz : CoreIn :=
  ⟨1, 0, 0, 0, 0, 0, 0, [], [], [], [], [], [], [], 40⟩

theorem lambdasGrid_length : lambdasGrid.length = 2101 := by
  rw [lambdasGrid, List.length_map, List.length_range]

/-- Helper: run_prospect on version "5" (exact match) calls prospectdcore
with ant = 0, the PROSPECT-5 selections and a zeroed kant. -/
theorem run_prospect_5 (P : Prims) (T : Tables) (n cab car cbrown cw cm ant : ℚ)
    (v : String) (hv : v = "5")
    (nr kab kcar kbrown kw km kant : Option (List ℚ)) (alpha : ℚ) :
    run_prospect P T n cab car cbrown cw cm ant v nr kab kcar kbrown kw km kant alpha =
      prospectdcore P n cab car cbrown cw cm 0
        (nr.getD T.nr_5) (kab.getD T.kab_5) (kcar.getD T.kcar_5)
        (kbrown.getD T.kbrown_5) (kw.getD T.kw_5) (km.getD T.km_5)
        (T.km_5.map (fun _ => 0)) alpha := by
  subst hv
  unfold run_prospect
  rw [if_pos rfl]

/-- Helper: run_prospect on a version other than "5" that uppercases to "D"
calls prospectdcore with the PROSPECT-D selections. -/
theorem run_prospect_D (P : Prims) (T : Tables) (n cab car cbrown cw cm ant : ℚ)
    (v : String) (h5 : v ≠ "5") (hD : pyUpper v = "D")
    (nr kab kcar kbrown kw km kant : Option (List ℚ)) (alpha : ℚ) :
    run_prospect P T n cab car cbrown cw cm ant v nr kab kcar kbrown kw km kant alpha =
      prospectdcore P n cab car cbrown cw cm ant
        (nr.getD T.nr_d) (kab.getD T.kab_d) (kcar.getD T.kcar_d)
        (kbrown.getD T.kbrown_d) (kw.getD T.kw_d) (km.getD T.km_d)
        (kant.getD T.kant_d) alpha := by
  unfold run_prospect
  rw [if_neg h5, if_pos hD]

/-- Helper: run_prospect on a version that is neither "5" nor uppercases to
"D" raises the version error. -/
theorem run_prospect_version_err (P : Prims) (T : Tables) (n cab car cbrown cw cm ant : ℚ)
    (v : String) (h5 : v ≠ "5") (hD : pyUpper v ≠ "D")
    (nr kab kcar kbrown kw km kant : Option (List ℚ)) (alpha : ℚ) :
    run_prospect P T n cab car cbrown cw cm ant v nr kab kcar kbrown kw km kant alpha =
      Except.error "prospect_version can only be 5 or D!" := by
  unfold run_prospect
  rw [if_neg h5, if_neg hD]

/-- Helper: prospectdcore returns the shape error whenever one of the seven
coefficient lists does not have length 2101. -/
theorem prospectdcore_badlen (P : Prims) (N cab car cbrown cw cm ant alpha : ℚ)
    (nr kab kcar kbrown kw km kant : List ℚ)
    (h : nr.length ≠ 2101 ∨ kab.length ≠ 2101 ∨ kcar.length ≠ 2101 ∨ kbrown.length ≠ 2101 ∨
         kw.length ≠ 2101 ∨ km.length ≠ 2101 ∨ kant.length ≠ 2101) :
    prospectdcore P N cab car cbrown cw cm ant nr kab kcar kbrown kw km kant alpha =
      Except.error "Leaf spectra don\x27t have the right shape!" := by
  simp only [prospectdcore, lambdasGrid_length]
  split
  · rfl
  · rename_i hcond
    exfalso
    have hall := not_not.mp hcond
    simp only [List.all_cons, List.all_nil, Bool.and_true, Bool.and_eq_true,
      decide_eq_true_eq] at hall
    tauto

/-- Claim C4: under prospect_version "5", run_prospect ignores the ant
argument entirely (the source passes ant = 0.0 and a zeroed kant on that
path), so any ant value produces the output of ant = 0 with the same other
parameters. -/
theorem run_prospect_v5_ignores_ant (P : Prims) (T : Tables)
    (n cab car cbrown cw cm x : ℚ)
    (nr kab kcar kbrown kw km kant : Option (List ℚ)) (alpha : ℚ) :
    run_prospect P T n cab car cbrown cw cm x "5" nr kab kcar kbrown kw km kant alpha =
      run_prospect P T n cab car cbrown cw cm 0 "5" nr kab kcar kbrown kw km kant alpha := by
  rw [run_prospect_5 P T n cab car cbrown cw cm x "5" rfl nr kab kcar kbrown kw km kant alpha,
    run_prospect_5 P T n cab car cbrown cw cm 0 "5" rfl nr kab kcar kbrown kw km kant alpha]

/-- Claim C8: calctav equals the Stern/Allen closed form calctavGen with the
intermediate b1 set to exactly 0 when alpha = 90, and with b1 the square
root of (sin^2 alpha - (nr^2+1)/2)^2 + k, k = -(nr^2-1)^2/4, for every
other alpha; the alpha branch changes only b1, the rest of the expression
(ts and tp1..tp5 combined as (ts+tp)/(2 sin^2 alpha)) is shared. -/
theorem calctav_b1_branch (P : Prims) (alpha nr : ℚ) :
    (alpha = 90 → calctav P alpha nr = calctavGen P alpha nr 0) ∧
    (alpha ≠ 90 →
      calctav P alpha nr =
        calctavGen P alpha nr
          (P.sqrt ((P.sin (alpha * P.pi / 180) * P.sin (alpha * P.pi / 180) - (nr * nr + 1) / 2) *
            (P.sin (alpha * P.pi / 180) * P.sin (alpha * P.pi / 180) - (nr * nr + 1) / 2) +
            -(nr * nr - 1) * (nr * nr - 1) / 4))) := by
  constructor
  · intro h
    subst h
    simp [calctav, calctavGen]
  · intro h
    simp [calctav, calctavGen, h]

/-- Claim C8 witness: at alpha = 90 the branch applies and calctav agrees
with the closed form at b1 = 0. -/
theorem calctav_b1_branch_witness :
    (90 : ℚ) = 90 ∧ calctav P1 90 2 = calctavGen P1 90 2 0 :=
  ⟨rfl, (calctav_b1_branch P1 90 2).1 rfl⟩

/-- Claim C5: in prospectdcore the per-index optical thickness kall is the
N-weighted linear combination of the contents against the coefficient
arrays, and tau is 1 at every index where kall = 0 and the exponential
integral closed form (1-kall) exp(-kall) + kall^2 (-Ei(-kall)) at every
index where kall > 0; the branch is chosen independently per index. -/
theorem prospect_kall_tau_piecewise (P : Prims) (c : CoreIn) (i : Nat) :
    kallAt c i =
      (c.cab * c.kab.getD i 0 + c.car * c.kcar.getD i 0 + c.ant * c.kant.getD i 0 +
       c.cbrown * c.kbrown.getD i 0 + c.cw * c.kw.getD i 0 + c.cm * c.km.getD i 0) / c.N ∧
    (kallAt c i = 0 → tauAt P c i = 1) ∧
    (0 < kallAt c i →
      tauAt P c i =
        (1 - kallAt c i) * P.exp (-kallAt c i) + kallAt c i ^ 2 * (-P.expi (-kallAt c i))) := by
  refine ⟨rfl, ?_, ?_⟩
  · intro h
    simp [tauAt, h]
  · intro h
    simp [tauAt, h]

/-- Claim C5 witness: on the zero-content input the thickness is 0 and tau
is exactly 1. -/
theorem prospect_kall_tau_piecewise_witness :
    kallAt cz 0 = 0 ∧ tauAt P1 cz 0 = 1 :=
  ⟨by simp [kallAt, cz], (prospect_kall_tau_piecewise P1 cz 0).2.1 (by simp [kallAt, cz])⟩

/-- Claim C6: the Stokes zero-absorption overwrite is applied elementwise:
at every index where r + t >= 1, Tsub is the no-absorption limit
t/(t+(1-t)(N-1)) and Rsub its complement; at every index where r + t < 1
the general power-law formulas stand, with bNm1 the real power of b to N-1
and b to the 2(N-1) computed as its square; and one concrete call (input c2)
takes different branches at its two indices. -/
theorem prospect_stokes_branches (P : Prims) (c : CoreIn) (i : Nat) :
    (1 ≤ (layerAt P c i).r + (layerAt P c i).t →
      TsubAt P c i =
        (layerAt P c i).t / ((layerAt P c i).t + (1 - (layerAt P c i).t) * (c.N - 1)) ∧
      RsubAt P c i = 1 - TsubAt P c i) ∧
    ((layerAt P c i).r + (layerAt P c i).t < 1 →
      RsubAt P c i =
        aAt P c i * (bNm1At P c i * bNm1At P c i - 1) /
          (aAt P c i * aAt P c i * (bNm1At P c i * bNm1At P c i) - 1) ∧
      TsubAt P c i =
        bNm1At P c i * (aAt P c i * aAt P c i - 1) /
          (aAt P c i * aAt P c i * (bNm1At P c i * bNm1At P c i) - 1) ∧
      bNm1At P c i = P.rpow (bAt P c i) (c.N - 1)) ∧
    1 ≤ (layerAt P1 c2 0).r + (layerAt P1 c2 0).t ∧
    (layerAt P1 c2 1).r + (layerAt P1 c2 1).t < 1 := by
  refine ⟨?_, ?_, ?_, ?_⟩
  · intro h
    constructor
    · simp only [TsubAt]
      rw [if_pos h]
    · simp only [RsubAt]
      rw [if_pos h]
  · intro h
    have h2 : ¬ (1 ≤ (layerAt P c i).r + (layerAt P c i).t) := not_le.mpr h
    refine ⟨?_, ?_, rfl⟩
    · simp only [RsubAt]
      rw [if_neg h2]
      rfl
    · simp only [TsubAt]
      rw [if_neg h2]
      rfl
  · norm_num [layerAt, refl_trans_one_layer, calctav, tauAt, kallAt, P1, c2]
  · norm_num [layerAt, refl_trans_one_layer, calctav, tauAt, kallAt, P1, c2]

/-- Claim C6 witness: on input c0 the zero-absorption branch applies at
index 0 and Tsub/Rsub take the no-absorption-limit values. -/
theorem prospect_stokes_branches_witness :
    1 ≤ (layerAt P1 c0 0).r + (layerAt P1 c0 0).t ∧
    TsubAt P1 c0 0 =
      (layerAt P1 c0 0).t / ((layerAt P1 c0 0).t + (1 - (layerAt P1 c0 0).t) * (c0.N - 1)) ∧
    RsubAt P1 c0 0 = 1 - TsubAt P1 c0 0 :=
  ⟨by norm_num [layerAt, refl_trans_one_layer, calctav, tauAt, kallAt, P1, c0],
   (prospect_stokes_branches P1 c0 0).1
     (by norm_num [layerAt, refl_trans_one_layer, calctav, tauAt, kallAt, P1, c0])⟩

/-- Claim C7: with N = 1, at every index whose denominators are
nondegenerate (t nonzero on the r + t >= 1 branch, a squared different
from 1 on the other branch; at the excluded points the source divides by
zero and produces NaN, which its spec documents as out of contract), the
inner N-1-layer stack degenerates to Tsub = 1 and Rsub = 0, and the
leaf-level reflectance and transmittance equal the single-layer Ra and Ta
produced by refl_trans_one_layer for the same inputs. -/
theorem prospect_N1_single_layer (P : Prims) (c : CoreIn) (i : Nat)
    (hN : c.N = 1) (hpow : ∀ x : ℚ, P.rpow x 0 = 1)
    (ht : 1 ≤ (layerAt P c i).r + (layerAt P c i).t → (layerAt P c i).t ≠ 0)
    (ha : (layerAt P c i).r + (layerAt P c i).t < 1 → aAt P c i * aAt P c i ≠ 1) :
    TsubAt P c i = 1 ∧ RsubAt P c i = 0 ∧
    reflAt P c i = (layerAt P c i).Ra ∧ tranAt P c i = (layerAt P c i).Ta := by
  have hb : bNm1At P c i = 1 := by
    rw [bNm1At, hN]
    simpa using hpow (bAt P c i)
  have hTR : TsubAt P c i = 1 ∧ RsubAt P c i = 0 := by
    by_cases hc : 1 ≤ (layerAt P c i).r + (layerAt P c i).t
    · have htn := ht hc
      have hT : TsubAt P c i = 1 := by
        simp only [TsubAt]
        rw [if_pos hc, hN]
        field_simp
      refine ⟨hT, ?_⟩
      simp only [RsubAt]
      rw [if_pos hc, hT]
      norm_num
    · have hlt : (layerAt P c i).r + (layerAt P c i).t < 1 := not_le.mp hc
      have ha2 : a2At P c i - 1 ≠ 0 := by
        rw [a2At]
        exact sub_ne_zero.mpr (ha hlt)
      have hT : TsubAt P c i = 1 := by
        simp only [TsubAt]
        rw [if_neg hc]
        simp only [TsubGenAt, bN2At, hb, mul_one, one_mul]
        exact div_self ha2
      refine ⟨hT, ?_⟩
      simp only [RsubAt]
      rw [if_neg hc]
      simp only [RsubGenAt, bN2At, hb, mul_one]
      norm_num
  refine ⟨hTR.1, hTR.2, ?_, ?_⟩
  · simp only [reflAt]
    rw [hTR.2]
    norm_num
  · simp only [tranAt]
    rw [hTR.1, hTR.2]
    norm_num

/-- Claim C7 witness: input c1 has N = 1, its index 0 falls in the
r + t < 1 branch with a squared different from 1, and the leaf-level
outputs coincide with the single-layer Ra and Ta there. -/
theorem prospect_N1_single_layer_witness :
    c1.N = 1 ∧ (∀ x : ℚ, P1.rpow x 0 = 1) ∧
    (1 ≤ (layerAt P1 c1 0).r + (layerAt P1 c1 0).t → (layerAt P1 c1 0).t ≠ 0) ∧
    ((layerAt P1 c1 0).r + (layerAt P1 c1 0).t < 1 → aAt P1 c1 0 * aAt P1 c1 0 ≠ 1) ∧
    TsubAt P1 c1 0 = 1 ∧ RsubAt P1 c1 0 = 0 ∧
    reflAt P1 c1 0 = (layerAt P1 c1 0).Ra ∧ tranAt P1 c1 0 = (layerAt P1 c1 0).Ta := by
  have hlt : (layerAt P1 c1 0).r + (layerAt P1 c1 0).t < 1 := by
    norm_num [layerAt, refl_trans_one_layer, calctav, tauAt, kallAt, P1, c1]
  have hna : aAt P1 c1 0 * aAt P1 c1 0 ≠ 1 := by
    norm_num [aAt, DAt, layerAt, refl_trans_one_layer, calctav, tauAt, kallAt, P1, c1]
  exact ⟨rfl, fun _ => rfl, fun hge => absurd hge (not_le.mpr hlt), fun _ => hna,
    prospect_N1_single_layer P1 c1 0 rfl (fun _ => rfl)
      (fun hge => absurd hge (not_le.mpr hlt)) (fun _ => hna)⟩

/-- Claim C2: prospectdcore raises the shape error, returning no result,
whenever any of the seven coefficient arrays does not have exactly 2101
elements (the error is the whole outcome, so no kall, tau or reflectance
is produced); in particular a kab override of length 2100 passed through
run_prospect (default version "D") raises this error. -/
theorem prospectdcore_shape_validation (P : Prims) (T : Tables)
    (N cab car cbrown cw cm ant alpha : ℚ)
    (nr kab kcar kbrown kw km kant : List ℚ) (kabL : List ℚ)
    (h : nr.length ≠ 2101 ∨ kab.length ≠ 2101 ∨ kcar.length ≠ 2101 ∨ kbrown.length ≠ 2101 ∨
         kw.length ≠ 2101 ∨ km.length ≠ 2101 ∨ kant.length ≠ 2101)
    (hk : kabL.length = 2100) :
    prospectdcore P N cab car cbrown cw cm ant nr kab kcar kbrown kw km kant alpha =
      Except.error "Leaf spectra don\x27t have the right shape!" ∧
    run_prospect P T N cab car cbrown cw cm ant "D"
        none (some kabL) none none none none none alpha =
      Except.error "Leaf spectra don\x27t have the right shape!" := by
  constructor
  · exact prospectdcore_badlen P N cab car cbrown cw cm ant alpha
      nr kab kcar kbrown kw km kant h
  · rw [run_prospect_D P T N cab car cbrown cw cm ant "D" (by decide) rfl
      none (some kabL) none none none none none alpha]
    refine prospectdcore_badlen P N cab car cbrown cw cm ant alpha _ _ _ _ _ _ _ ?_
    refine Or.inr (Or.inl ?_)
    simp [hk]

/-- Claim C2 witness: empty coefficient lists trigger the shape error in
prospectdcore, and a kab override of length 2100 triggers it through
run_prospect. -/
theorem prospectdcore_shape_validation_witness :
    (([] : List ℚ).length ≠ 2101 ∨ ([] : List ℚ).length ≠ 2101 ∨
     ([] : List ℚ).length ≠ 2101 ∨ ([] : List ℚ).length ≠ 2101 ∨
     ([] : List ℚ).length ≠ 2101 ∨ ([] : List ℚ).length ≠ 2101 ∨
     ([] : List ℚ).length ≠ 2101) ∧
    (List.replicate 2100 (0 : ℚ)).length = 2100 ∧
    prospectdcore P1 1 2 3 4 5 6 7 [] [] [] [] [] [] [] 40 =
      Except.error "Leaf spectra don\x27t have the right shape!" ∧
    run_prospect P1 T0 1 2 3 4 5 6 7 "D"
        none (some (List.replicate 2100 0)) none none none none none 40 =
      Except.error "Leaf spectra don\x27t have the right shape!" :=
  ⟨Or.inl (by simp), by rw [List.length_replicate],
   (prospectdcore_shape_validation P1 T0 1 2 3 4 5 6 7 40 [] [] [] [] [] [] []
     (List.replicate 2100 0) (Or.inl (by simp)) (by rw [List.length_replicate])).1,
   (prospectdcore_shape_validation P1 T0 1 2 3 4 5 6 7 40 [] [] [] [] [] [] []
     (List.replicate 2100 0) (Or.inl (by simp)) (by rw [List.length_replicate])).2⟩

/-- Claim C1: run_prospect dispatches on the version string: exactly "5"
(case-sensitive) selects the PROSPECT-5 call, any other string whose
upper-casing is "D" (so both "d" and "D", which give identical results)
selects the PROSPECT-D call, and every other string, including " 5", "5 "
and "x", yields the version error and no result. -/
theorem run_prospect_dispatch (P : Prims) (T : Tables)
    (n cab car cbrown cw cm ant : ℚ) (v : String)
    (nr kab kcar kbrown kw km kant : Option (List ℚ)) (alpha : ℚ) :
    (v = "5" →
      run_prospect P T n cab car cbrown cw cm ant v nr kab kcar kbrown kw km kant alpha =
        prospectdcore P n cab car cbrown cw cm 0
          (nr.getD T.nr_5) (kab.getD T.kab_5) (kcar.getD T.kcar_5)
          (kbrown.getD T.kbrown_5) (kw.getD T.kw_5) (km.getD T.km_5)
          (T.km_5.map (fun _ => 0)) alpha) ∧
    (v ≠ "5" → pyUpper v = "D" →
      run_prospect P T n cab car cbrown cw cm ant v nr kab kcar kbrown kw km kant alpha =
        prospectdcore P n cab car cbrown cw cm ant
          (nr.getD T.nr_d) (kab.getD T.kab_d) (kcar.getD T.kcar_d)
          (kbrown.getD T.kbrown_d) (kw.getD T.kw_d) (km.getD T.km_d)
          (kant.getD T.kant_d) alpha) ∧
    (v ≠ "5" → pyUpper v ≠ "D" →
      run_prospect P T n cab car cbrown cw cm ant v nr kab kcar kbrown kw km kant alpha =
        Except.error "prospect_version can only be 5 or D!") ∧
    run_prospect P T n cab car cbrown cw cm ant "d" nr kab kcar kbrown kw km kant alpha =
      run_prospect P T n cab car cbrown cw cm ant "D" nr kab kcar kbrown kw km kant alpha ∧
    run_prospect P T n cab car cbrown cw cm ant " 5" nr kab kcar kbrown kw km kant alpha =
      Except.error "prospect_version can only be 5 or D!" ∧
    run_prospect P T n cab car cbrown cw cm ant "5 " nr kab kcar kbrown kw km kant alpha =
      Except.error "prospect_version can only be 5 or D!" ∧
    run_prospect P T n cab car cbrown cw cm ant "x" nr kab kcar kbrown kw km kant alpha =
      Except.error "prospect_version can only be 5 or D!" := by
  refine ⟨?_, ?_, ?_, ?_, ?_, ?_, ?_⟩
  · intro hv
    exact run_prospect_5 P T n cab car cbrown cw cm ant v hv nr kab kcar kbrown kw km kant alpha
  · intro h5 hD
    exact run_prospect_D P T n cab car cbrown cw cm ant v h5 hD nr kab kcar kbrown kw km kant alpha
  · intro h5 hD
    exact run_prospect_version_err P T n cab car cbrown cw cm ant v h5 hD
      nr kab kcar kbrown kw km kant alpha
  · rw [run_prospect_D P T n cab car cbrown cw cm ant "d" (by decide) (by decide)
        nr kab kcar kbrown kw km kant alpha,
      run_prospect_D P T n cab car cbrown cw cm ant "D" (by decide) rfl
        nr kab kcar kbrown kw km kant alpha]
  · exact run_prospect_version_err P T n cab car cbrown cw cm ant " 5" (by decide) (by decide)
      nr kab kcar kbrown kw km kant alpha
  · exact run_prospect_version_err P T n cab car cbrown cw cm ant "5 " (by decide) (by decide)
      nr kab kcar kbrown kw km kant alpha
  · exact run_prospect_version_err P T n cab car cbrown cw cm ant "x" (by decide) (by decide)
      nr kab kcar kbrown kw km kant alpha

/-- Claim C1 witness: at the version string "x" the error branch of the
dispatch theorem applies. -/
theorem run_prospect_dispatch_witness :
    ("x" : String) ≠ "5" ∧ pyUpper "x" ≠ "D" ∧
    run_prospect P1 T0 1 2 3 4 5 6 7 "x" none none none none none none none 40 =
      Except.error "prospect_version can only be 5 or D!" :=
  ⟨by decide, by decide,
   (run_prospect_dispatch P1 T0 1 2 3 4 5 6 7 "x"
     none none none none none none none 40).2.2.1 (by decide) (by decide)⟩

/-- Claim C3 counterexample: with version "5", correctly sized tables and a
caller-supplied kant of length 2100 (not 2101), run_prospect does not raise
the shape error: the source ignores the supplied kant on the PROSPECT-5
path and substitutes zeros of the table length. -/
theorem run_prospect_kant_v5_unchecked :
    run_prospect P1 T1 (3/2) 40 8 0 (1/100) (9/1000) 0 "5"
        none none none none none none (some (List.replicate 2100 0)) 40 ≠
      Except.error "Leaf spectra don\x27t have the right shape!" := by
  rw [run_prospect_5 P1 T1 (3/2) 40 8 0 (1/100) (9/1000) 0 "5" rfl
    none none none none none none (some (List.replicate 2100 0)) 40]
  simp only [prospectdcore, lambdasGrid_length]
  rw [if_neg (not_not.mpr (by
    simp only [Option.getD_none, T1, List.length_map, List.length_replicate,
      List.all_cons, List.all_nil]
    decide))]
  intro hcontra
  exact Except.noConfusion hcontra

/-- Claim C3 amended: a supplied override whose length is not 2101 makes
run_prospect fail with the shape error for every override the selected path
consults: all seven overrides under a version that upper-cases to "D", and
the six overrides other than kant under version "5"; a supplied kant is
ignored under version "5" (zeros of the table length are substituted), so
the result there does not depend on the kant argument at all. -/
theorem run_prospect_override_shape (P : Prims) (T : Tables)
    (n cab car cbrown cw cm ant : ℚ) (v : String)
    (nr kab kcar kbrown kw km kant kant2 : Option (List ℚ)) (alpha : ℚ) :
    (v = "5" →
      badLen nr ∨ badLen kab ∨ badLen kcar ∨ badLen kbrown ∨ badLen kw ∨ badLen km →
      run_prospect P T n cab car cbrown cw cm ant v nr kab kcar kbrown kw km kant alpha =
        Except.error "Leaf spectra don\x27t have the right shape!") ∧
    (v ≠ "5" → pyUpper v = "D" →
      badLen nr ∨ badLen kab ∨ badLen kcar ∨ badLen kbrown ∨ badLen kw ∨ badLen km ∨
        badLen kant →
      run_prospect P T n cab car cbrown cw cm ant v nr kab kcar kbrown kw km kant alpha =
        Except.error "Leaf spectra don\x27t have the right shape!") ∧
    (v = "5" →
      run_prospect P T n cab car cbrown cw cm ant v nr kab kcar kbrown kw km kant alpha =
        run_prospect P T n cab car cbrown cw cm ant v nr kab kcar kbrown kw km kant2 alpha) := by
  refine ⟨?_, ?_, ?_⟩
  · intro hv hbad
    rw [run_prospect_5 P T n cab car cbrown cw cm ant v hv nr kab kcar kbrown kw km kant alpha]
    refine prospectdcore_badlen P n cab car cbrown cw cm 0 alpha _ _ _ _ _ _ _ ?_
    rcases hbad with ⟨l, hl, hlen⟩ | ⟨l, hl, hlen⟩ | ⟨l, hl, hlen⟩ | ⟨l, hl, hlen⟩ |
      ⟨l, hl, hlen⟩ | ⟨l, hl, hlen⟩
    · exact Or.inl (by rw [hl]; simpa using hlen)
    · exact Or.inr (Or.inl (by rw [hl]; simpa using hlen))
    · exact Or.inr (Or.inr (Or.inl (by rw [hl]; simpa using hlen)))
    · exact Or.inr (Or.inr (Or.inr (Or.inl (by rw [hl]; simpa using hlen))))
    · exact Or.inr (Or.inr (Or.inr (Or.inr (Or.inl (by rw [hl]; simpa using hlen)))))
    · exact Or.inr (Or.inr (Or.inr (Or.inr (Or.inr (Or.inl (by rw [hl]; simpa using hlen))))))
  · intro h5 hD hbad
    rw [run_prospect_D P T n cab car cbrown cw cm ant v h5 hD nr kab kcar kbrown kw km kant alpha]
    refine prospectdcore_badlen P n cab car cbrown cw cm ant alpha _ _ _ _ _ _ _ ?_
    rcases hbad with ⟨l, hl, hlen⟩ | ⟨l, hl, hlen⟩ | ⟨l, hl, hlen⟩ | ⟨l, hl, hlen⟩ |
      ⟨l, hl, hlen⟩ | ⟨l, hl, hlen⟩ | ⟨l, hl, hlen⟩
    · exact Or.inl (by rw [hl]; simpa using hlen)
    · exact Or.inr (Or.inl (by rw [hl]; simpa using hlen))
    · exact Or.inr (Or.inr (Or.inl (by rw [hl]; simpa using hlen)))
    · exact Or.inr (Or.inr (Or.inr (Or.inl (by rw [hl]; simpa using hlen))))
    · exact Or.inr (Or.inr (Or.inr (Or.inr (Or.inl (by rw [hl]; simpa using hlen)))))
    · exact Or.inr (Or.inr (Or.inr (Or.inr (Or.inr (Or.inl (by rw [hl]; simpa using hlen))))))
    · exact Or.inr (Or.inr (Or.inr (Or.inr (Or.inr (Or.inr (by rw [hl]; simpa using hlen))))))
  · intro hv
    rw [run_prospect_5 P T n cab car cbrown cw cm ant v hv nr kab kcar kbrown kw km kant alpha,
      run_prospect_5 P T n cab car cbrown cw cm ant v hv nr kab kcar kbrown kw km kant2 alpha]

/-- Claim C3 amended witness: under version "5" a kab override of length
2100 raises the shape error. -/
theorem run_prospect_override_shape_witness :
    ("5" : String) = "5" ∧
    (badLen none ∨ badLen (some (List.replicate 2100 0)) ∨ badLen none ∨ badLen none ∨
      badLen none ∨ badLen none) ∧
    run_prospect P1 T0 1 2 3 4 5 6 7 "5"
        none (some (List.replicate 2100 0)) none none none none none 40 =
      Except.error "Leaf spectra don\x27t have the right shape!" :=
  ⟨rfl,
   Or.inr (Or.inl ⟨List.replicate 2100 0, rfl, by rw [List.length_replicate]; decide⟩),
   (run_prospect_override_shape P1 T0 1 2 3 4 5 6 7 "5"
     none (some (List.replicate 2100 0)) none none none none none none 40).1 rfl
     (Or.inr (Or.inl ⟨List.replicate 2100 0, rfl, by rw [List.length_replicate]; decide⟩))⟩
